import Mathlib

/-!
Verification development for the exam-proctoring capture / recording pipeline
of this repository: the VideoRecorder component (screen + webcam acquisition,
canvas compositing, MediaRecorder encoding, checksum + upload with retry and
live-frame broadcasting) and the observer-side LiveVideoStream component
(frame reception and stream-health classification).

Every definition below is a shallow embedding of the corresponding source
function; machine integers are Nat, pixel geometry is exact rational
arithmetic, browser effects are made explicit as action traces, and the
storage / database capabilities are abstracted as per-attempt oracles.
-/

namespace ExamProctor

/-! ## Configuration constants (defaults from the VideoRecorder source) -/

def recordingFps : Nat := 24

def videoBitrate : Nat := 400000

def audioBitrate : Nat := 48000

/-- VITE_PIP_WIDTH_RATIO default 0.2 : the overlay takes 20 percent of the
composited surface width. -/
def pipWidthRatio : ℚ := 1 / 5

def maxCanvasWidth : Nat := 1280

/-- The observer health check runs on a setInterval of 5000 ms. -/
def healthCheckIntervalMs : Nat := 5000

/-- Live frames are broadcast on a setInterval of 2000 ms. -/
def broadcastIntervalMs : Nat := 2000

/-! ## Composited surface geometry (canvas sizing and drawComposite) -/

structure CanvasSize where
  width : Nat
  height : Nat
  deriving DecidableEq

/-- Canvas sizing from startRecording: if the primary capture is wider than
maxCanvasWidth the surface is capped at that width and the height is scaled
by the same factor and rounded as Math.round does; otherwise the native
resolution is kept. -/
def canvasSizeFor (originalWidth originalHeight : Nat) : CanvasSize :=
  if maxCanvasWidth < originalWidth then
    { width := maxCanvasWidth
    , height := (round ((originalHeight : ℚ) * (maxCanvasWidth : ℚ) / (originalWidth : ℚ))).toNat }
  else
    { width := originalWidth, height := originalHeight }

structure Rect where
  x : ℚ
  y : ℚ
  w : ℚ
  h : ℚ
  deriving DecidableEq

/-- Overlay rectangle computed on every tick of drawComposite:
pipWidth = canvas.width * pipWidthRatio, pipHeight = pipWidth * 0.75,
pipX = canvas.width - pipWidth - 20, pipY = canvas.height - pipHeight - 20. -/
def pipRect (c : CanvasSize) : Rect :=
  let pipWidth : ℚ := (c.width : ℚ) * pipWidthRatio
  let pipHeight : ℚ := pipWidth * (3 / 4)
  { x := (c.width : ℚ) - pipWidth - 20
  , y := (c.height : ℚ) - pipHeight - 20
  , w := pipWidth
  , h := pipHeight }

/-- The rectangle lies fully inside the surface bounds. -/
def rectWithin (r : Rect) (c : CanvasSize) : Prop :=
  0 ≤ r.x ∧ 0 ≤ r.y ∧ r.x + r.w ≤ (c.width : ℚ) ∧ r.y + r.h ≤ (c.height : ℚ)

instance (r : Rect) (c : CanvasSize) : Decidable (rectWithin r c) := by
  unfold rectWithin; infer_instance

/-! ## Observer side: LiveVideoStream state and health classification -/

inductive Health
  | good
  | fair
  | poor
  deriving DecidableEq

structure ObserverState where
  isStreaming : Bool
  lastFrameUpdate : Option Nat
  streamHealth : Health
  errorMsg : Option String
  deriving DecidableEq

/-- useState defaults of the LiveVideoStream component: not streaming, no
frame seen, health good, no error.  Note the component has no separate
disconnected health value. -/
def initialObserverState : ObserverState :=
  { isStreaming := false
  , lastFrameUpdate := none
  , streamHealth := Health.good
  , errorMsg := none }

/-- The broadcast handler for the video-frame event: renders the frame,
records the arrival time and marks the session streaming.  It does not touch
streamHealth. -/
def onVideoFrame (now : Nat) (s : ObserverState) : ObserverState :=
  { s with lastFrameUpdate := some now, isStreaming := true }

/-- checkStreamHealth, run on the 5000 ms polling interval: classifies from
the elapsed time since the last frame with thresholds 3000 ms and 10000 ms;
with no frame ever received the state is poor. -/
def checkStreamHealth (now : Nat) (s : ObserverState) : ObserverState :=
  match s.lastFrameUpdate with
  | none => { s with streamHealth := Health.poor, isStreaming := false }
  | some t =>
    let timeSinceLastFrame := now - t
    if timeSinceLastFrame < 3000 then
      { s with streamHealth := Health.good }
    else if timeSinceLastFrame < 10000 then
      { s with streamHealth := Health.fair }
    else
      { s with streamHealth := Health.poor
             , errorMsg := some "Stream may have disconnected"
             , isStreaming := false }

/-! ## SHA-256 (crypto.subtle.digest) and calculateChecksum -/

/-- Truncation to a 32 bit word. -/
def w32 (n : Nat) : Nat := n % 4294967296

/-- Right rotation of a 32 bit word. -/
def rotr32 (x n : Nat) : Nat := w32 ((x >>> n) ||| w32 (x <<< (32 - n)))

def sSig0 (x : Nat) : Nat := (rotr32 x 7) ^^^ (rotr32 x 18) ^^^ (x >>> 3)

def sSig1 (x : Nat) : Nat := (rotr32 x 17) ^^^ (rotr32 x 19) ^^^ (x >>> 10)

def bSig0 (x : Nat) : Nat := (rotr32 x 2) ^^^ (rotr32 x 13) ^^^ (rotr32 x 22)

def bSig1 (x : Nat) : Nat := (rotr32 x 6) ^^^ (rotr32 x 11) ^^^ (rotr32 x 25)

def chFun (e f g : Nat) : Nat := (e &&& f) ^^^ ((e ^^^ 4294967295) &&& g)

def majFun (a b c : Nat) : Nat := (a &&& b) ^^^ (a &&& c) ^^^ (b &&& c)

def sha256K : List Nat :=
  [1116352408, 1899447441, 3049323471, 3921009573,
   961987163, 1508970993, 2453635748, 2870763221,
   3624381080, 310598401, 607225278, 1426881987,
   1925078388, 2162078206, 2614888103, 3248222580,
   3835390401, 4022224774, 264347078, 604807628,
   770255983, 1249150122, 1555081692, 1996064986,
   2554220882, 2821834349, 2952996808, 3210313671,
   3336571891, 3584528711, 113926993, 338241895,
   666307205, 773529912, 1294757372, 1396182291,
   1695183700, 1986661051, 2177026350, 2456956037,
   2730485921, 2820302411, 3259730800, 3345764771,
   3516065817, 3600352804, 4094571909, 275423344,
   430227734, 506948616, 659060556, 883997877,
   958139571, 1322822218, 1537002063, 1747873779,
   1955562222, 2024104815, 2227730452, 2361852424,
   2428436474, 2756734187, 3204031479, 3329325298]

/-- Big-endian byte rendering of a value into a fixed number of bytes. -/
def beBytes (numBytes value : Nat) : List Nat :=
  (List.range numBytes).map (fun i => (value >>> (8 * (numBytes - 1 - i))) % 256)

/-- SHA-256 padding: append the 0x80 byte, zero bytes up to 56 mod 64, then
the 64 bit big-endian bit length. -/
def sha256Pad (msg : List Nat) : List Nat :=
  let l := msg.length
  let zeros := (64 - ((l + 9) % 64)) % 64
  msg ++ [128] ++ List.replicate zeros 0 ++ beBytes 8 (8 * l)

/-- Split a byte list into blocks of 64 bytes; structural recursion on a
fuel that the list length always dominates (every block consumes at least
one byte). -/
def toBlocksGo : Nat → List Nat → List (List Nat)
  | 0, _ => []
  | _, [] => []
  | fuel + 1, l => l.take 64 :: toBlocksGo fuel (l.drop 64)

/-- Split a byte list into blocks of 64 bytes. -/
def toBlocks (l : List Nat) : List (List Nat) :=
  toBlocksGo l.length l

/-- The 16 initial 32 bit words of a 64 byte block, big endian. -/
def blockWords (block : List Nat) : List Nat :=
  (List.range 16).map (fun i =>
    (block.getD (4 * i) 0) * 16777216 + (block.getD (4 * i + 1) 0) * 65536 +
    (block.getD (4 * i + 2) 0) * 256 + block.getD (4 * i + 3) 0)

/-- Message-schedule extension from 16 to 64 words. -/
def extendWords (w16 : List Nat) : List Nat :=
  (List.range 48).foldl
    (fun w t =>
      w ++ [w32 (sSig1 (w.getD (t + 14) 0) + w.getD (t + 9) 0 +
                 sSig0 (w.getD (t + 1) 0) + w.getD t 0)])
    w16

structure Hash8 where
  a : Nat
  b : Nat
  c : Nat
  d : Nat
  e : Nat
  f : Nat
  g : Nat
  hh : Nat
  deriving DecidableEq

def sha256Init : Hash8 :=
  { a := 1779033703
  , b := 3144134277
  , c := 1013904242
  , d := 2773480762
  , e := 1359893119
  , f := 2600822924
  , g := 528734635
  , hh := 1541459225 }

def compressStep (w : List Nat) (st : Hash8) (t : Nat) : Hash8 :=
  let t1 := w32 (st.hh + bSig1 st.e + chFun st.e st.f st.g + sha256K.getD t 0 + w.getD t 0)
  let t2 := w32 (bSig0 st.a + majFun st.a st.b st.c)
  { a := w32 (t1 + t2), b := st.a, c := st.b, d := st.c
  , e := w32 (st.d + t1), f := st.e, g := st.f, hh := st.g }

def compressBlock (st : Hash8) (block : List Nat) : Hash8 :=
  let w := extendWords (blockWords block)
  let r := (List.range 64).foldl (compressStep w) st
  { a := w32 (st.a + r.a), b := w32 (st.b + r.b), c := w32 (st.c + r.c)
  , d := w32 (st.d + r.d), e := w32 (st.e + r.e), f := w32 (st.f + r.f)
  , g := w32 (st.g + r.g), hh := w32 (st.hh + r.hh) }

/-- The 32 byte SHA-256 digest of a byte list. -/
def sha256Digest (msg : List Nat) : List Nat :=
  let fin := (toBlocks (sha256Pad msg)).foldl compressBlock sha256Init
  beBytes 4 fin.a ++ beBytes 4 fin.b ++ beBytes 4 fin.c ++ beBytes 4 fin.d ++
  beBytes 4 fin.e ++ beBytes 4 fin.f ++ beBytes 4 fin.g ++ beBytes 4 fin.hh

/-- Lowercase hexadecimal digit, as produced by Number.toString(16). -/
def hexDigitChar (n : Nat) : Char :=
  if n < 10 then Char.ofNat (48 + n) else Char.ofNat (87 + n)

/-- Rendering of one digest byte: toString(16).padStart(2, zero) gives the
two lowercase hex digits of a byte below 256. -/
def byteHexChars (b : Nat) : List Char :=
  [hexDigitChar (b / 16), hexDigitChar (b % 16)]

/-- calculateChecksum: SHA-256 of the blob bytes, rendered as the
concatenation of two zero-padded lowercase hex digits per byte. -/
def calculateChecksum (blob : List Nat) : String :=
  String.mk ((sha256Digest blob).map byteHexChars).join

def isLowerHexDigit (c : Char) : Bool :=
  (48 ≤ c.toNat && c.toNat ≤ 57) || (97 ≤ c.toNat && c.toNat ≤ 102)

/-! ## Chunk assembly (recorder.onstop blob construction) -/

/-- The Blob constructor applied to the ordered chunk list: concatenation in
sequence order. -/
def blobOfChunks (chunks : List (List Nat)) : List Nat := chunks.join

structure RecordingArtifact where
  blob : List Nat
  checksum : String
  deriving DecidableEq

/-- Finalization performed at the start of recorder.onstop: assemble the
blob from the recorded chunks and compute its checksum. -/
def finalizeRecording (chunks : List (List Nat)) : RecordingArtifact :=
  { blob := blobOfChunks chunks
  , checksum := calculateChecksum (blobOfChunks chunks) }

/-! ## uploadRecording and the onstop retry loop -/

inductive UploadError
  | tooLarge
  | storageFailure
  | dbFailure
  deriving DecidableEq

/-- The hard ceiling checked by uploadRecording: 5 * 1024 * 1024 * 1024 bytes. -/
def maxUploadSize : Nat := 5 * 1024 * 1024 * 1024

/-- Per-attempt behaviour of the external storage capability and of the
session metadata update. -/
structure StorageEnv where
  storeOk : Nat → Bool
  dbOk : Nat → Bool

/-- uploadRecording for a blob of the given size: the size precheck throws
the too-large error before the storage capability is touched; then the
storage upload, then the database update.  The Bool records whether the
storage capability was invoked in this attempt. -/
def uploadRecording (size : Nat) (storeOk dbOk : Bool) :
    Except UploadError String × Bool :=
  if maxUploadSize < size then (Except.error UploadError.tooLarge, false)
  else if storeOk = false then (Except.error UploadError.storageFailure, true)
  else if dbOk = false then (Except.error UploadError.dbFailure, true)
  else (Except.ok "exam-recordings", true)

/-- The configured retry bound of the onstop upload loop. -/
def maxRetries : Nat := 3

structure UploadLoopResult where
  uploadSuccess : Bool
  attempts : Nat
  delays : List Nat
  storageCalls : Nat
  deriving DecidableEq

/-- One unfolding of the while loop in recorder.onstop.  The loop runs while
uploadSuccess is false and retryCount is below maxRetries; on a failed
attempt retryCount is incremented and, if another attempt remains, a wait of
2000 * retryCount ms is inserted.  The fuel equals maxRetries minus the
current retryCount, so the guard and the fuel agree. -/
def uploadLoopGo (size : Nat) (env : StorageEnv) :
    Nat → Nat → List Nat → Nat → UploadLoopResult
  | 0, retryCount, delays, calls =>
    { uploadSuccess := false, attempts := retryCount, delays := delays, storageCalls := calls }
  | fuel + 1, retryCount, delays, calls =>
    let r := uploadRecording size (env.storeOk retryCount) (env.dbOk retryCount)
    let calls := calls + (if r.2 then 1 else 0)
    match r.1 with
    | Except.ok _ =>
      { uploadSuccess := true, attempts := retryCount + 1, delays := delays, storageCalls := calls }
    | Except.error _ =>
      let rc := retryCount + 1
      if rc < maxRetries then uploadLoopGo size env fuel rc (delays ++ [2000 * rc]) calls
      else { uploadSuccess := false, attempts := rc, delays := delays, storageCalls := calls }

/-- The retry loop of recorder.onstop, entered with retryCount zero. -/
def uploadLoop (size : Nat) (env : StorageEnv) : UploadLoopResult :=
  uploadLoopGo size env maxRetries 0 [] 0

structure OnStopResult where
  run : UploadLoopResult
  deliveredBlob : List Nat
  deliveredChecksum : String

/-- recorder.onstop: assemble the blob, compute its checksum, run the upload
retry loop, and afterwards always deliver the blob and checksum to the
onRecordingStop callback. -/
def recorderOnStop (chunks : List (List Nat)) (env : StorageEnv) : OnStopResult :=
  let art := finalizeRecording chunks
  { run := uploadLoop art.blob.length env
  , deliveredBlob := art.blob
  , deliveredChecksum := art.checksum }

/-! ## The recording pipeline state machine (startRecording / stopRecording /
stopAllStreams and the track ended listeners) -/

inductive StreamKind
  | screen
  | webcam
  | composite
  deriving DecidableEq

/-- Observable browser effects of the pipeline, in program order. -/
inductive RecAction
  | setRecordingState (flag : Bool)
  | requestDisplayMedia
  | requestUserMedia
  | startBroadcaster
  | createRecorder
  | startRecorder
  | stopRecorder
  | stopTracks (k : StreamKind)
  | cancelAnimation
  | clearBroadcastTimer
  | removeChannel
  | clearRecordingTimer
  | reportError (msg : String)
  deriving DecidableEq

/-- The mutable state of the VideoRecorder component: the isRecording and
error useState cells and the useRef cells (a ref is present when its current
value is non-null), plus flags recording which resources have been stopped. -/
structure RecState where
  isRecording : Bool
  errorMsg : Option String
  recorderPresent : Bool
  recorderStarted : Bool
  recorderStopped : Bool
  screenRefPresent : Bool
  webcamRefPresent : Bool
  compositeRefPresent : Bool
  screenTracksStopped : Bool
  webcamTracksStopped : Bool
  compositeTracksStopped : Bool
  animationFramePresent : Bool
  broadcastTimerPresent : Bool
  channelPresent : Bool
  recordingTimerPresent : Bool
  canvas : Option CanvasSize
  mimeType : Option String
  deriving DecidableEq

def initialRecState : RecState :=
  { isRecording := false, errorMsg := none
  , recorderPresent := false, recorderStarted := false, recorderStopped := false
  , screenRefPresent := false, webcamRefPresent := false, compositeRefPresent := false
  , screenTracksStopped := false, webcamTracksStopped := false, compositeTracksStopped := false
  , animationFramePresent := false, broadcastTimerPresent := false, channelPresent := false
  , recordingTimerPresent := false, canvas := none, mimeType := none }

/-- stopAllStreams: cancel the animation frame, clear the broadcast timer,
remove the realtime channel, and stop the tracks of the screen, webcam and
composite streams, nulling each ref.  Each source-level null guard is kept
for the emitted actions; on the state the guarded assignments collapse to
unconditional ones because an absent ref is already null and its tracks flag
unchanged. -/
def stopAllStreams (s : RecState) : RecState × List RecAction :=
  ({ s with animationFramePresent := false
          , broadcastTimerPresent := false
          , channelPresent := false
          , screenRefPresent := false
          , webcamRefPresent := false
          , compositeRefPresent := false
          , screenTracksStopped := s.screenTracksStopped || s.screenRefPresent
          , webcamTracksStopped := s.webcamTracksStopped || s.webcamRefPresent
          , compositeTracksStopped := s.compositeTracksStopped || s.compositeRefPresent }
  , (if s.animationFramePresent then [RecAction.cancelAnimation] else []) ++
    (if s.broadcastTimerPresent then [RecAction.clearBroadcastTimer] else []) ++
    (if s.channelPresent then [RecAction.removeChannel] else []) ++
    (if s.screenRefPresent then [RecAction.stopTracks StreamKind.screen] else []) ++
    (if s.webcamRefPresent then [RecAction.stopTracks StreamKind.webcam] else []) ++
    (if s.compositeRefPresent then [RecAction.stopTracks StreamKind.composite] else []))

/-- stopRecording: guarded on the recorder ref being set and isRecording
being true; stops the recorder, leaves recording state, clears the elapsed
timer and runs stopAllStreams.  Outside the guard it does nothing. -/
def stopRecording (s : RecState) : RecState × List RecAction :=
  if s.recorderPresent && s.isRecording then
    let s1 : RecState :=
      { s with recorderStopped := true
             , isRecording := false
             , recordingTimerPresent := false }
    let timerActs : List RecAction :=
      if s.recordingTimerPresent then [RecAction.clearRecordingTimer] else []
    let r := stopAllStreams s1
    (r.1, [RecAction.stopRecorder, RecAction.setRecordingState false] ++ timerActs ++ r.2)
  else (s, [])

/-- The listener registered on every track of both sources for the ended
event: both listeners call stopRecording. -/
def onTrackEnded (_k : StreamKind) (s : RecState) : RecState × List RecAction :=
  stopRecording s

/-- How the browser answers the acquisition requests of startRecording.
screenSurface is the surface type the granted screen track reports in its
settings; the source passes displaySurface monitor as a constraint but never
reads this reported value back. -/
structure AcquireEnv where
  screenGranted : Bool
  screenSurface : String
  screenWidth : Nat
  screenHeight : Nat
  screenHasAudio : Bool
  webcamGranted : Bool
  vp9Supported : Bool

/-- startRecording, step by step from the source: set isRecording true first
(to render the preview element), request the screen capture, request the
webcam, store both refs, size the canvas from the screen track settings,
start the compositing loop, capture the composite stream, start live
streaming (channel plus broadcast timer), pick the codec, create the
MediaRecorder, register its listeners, start it, and start the elapsed
timer.  A rejected acquisition throws, and the catch only records the error
message.  Note that env.screenSurface is never consulted. -/
def startRecording (env : AcquireEnv) (s : RecState) : RecState × List RecAction :=
  let s := { s with errorMsg := none, isRecording := true }
  let acts := [RecAction.setRecordingState true, RecAction.requestDisplayMedia]
  if env.screenGranted = false then
    ({ s with errorMsg := some "Failed to start recording" }
    , acts ++ [RecAction.reportError "Failed to start recording"])
  else
    let acts := acts ++ [RecAction.requestUserMedia]
    if env.webcamGranted = false then
      ({ s with errorMsg := some "Failed to start recording" }
      , acts ++ [RecAction.reportError "Failed to start recording"])
    else
      let s := { s with screenRefPresent := true, webcamRefPresent := true
                      , canvas := some (canvasSizeFor env.screenWidth env.screenHeight)
                      , animationFramePresent := true
                      , compositeRefPresent := true
                      , channelPresent := true, broadcastTimerPresent := true
                      , mimeType := some (if env.vp9Supported
                          then "video/webm;codecs=vp9,opus"
                          else "video/webm;codecs=vp8,opus")
                      , recorderPresent := true, recorderStarted := true
                      , recordingTimerPresent := true }
      (s, acts ++ [RecAction.startBroadcaster, RecAction.createRecorder, RecAction.startRecorder])

/-- The concrete run in which the browser grants a window capture instead of
an entire display: everything granted, reported surface type window. -/
def windowSurfaceEnv : AcquireEnv :=
  { screenGranted := true, screenSurface := "window", screenWidth := 1920
  , screenHeight := 1080, screenHasAudio := true, webcamGranted := true
  , vp9Supported := true }

/-- The same environment but with an entire-display capture. -/
def monitorSurfaceEnv : AcquireEnv :=
  { windowSurfaceEnv with screenSurface := "monitor" }

/-- The pipeline has fully shut down: recorder stopped, recording state
left, all three streams had their tracks stopped, compositing loop and
broadcast timer cancelled and the realtime channel removed. -/
def pipelineStopped (s : RecState) : Prop :=
  s.recorderStopped = true ∧ s.isRecording = false ∧
  s.screenTracksStopped = true ∧ s.webcamTracksStopped = true ∧
  s.compositeTracksStopped = true ∧ s.animationFramePresent = false ∧
  s.broadcastTimerPresent = false ∧ s.channelPresent = false

/-- Everything claim C8 asks of a stop issued in state s: all stream refs
released (tracks of every still-held stream stopped), the render loop and
timers cancelled, no error recorded, and a second stopRecording that is a
pure no-op emitting no action at all. -/
def stopOutcome (s : RecState) : Prop :=
  (stopRecording s).1.screenRefPresent = false ∧
  (stopRecording s).1.webcamRefPresent = false ∧
  (stopRecording s).1.compositeRefPresent = false ∧
  (s.screenRefPresent = true → (stopRecording s).1.screenTracksStopped = true) ∧
  (s.webcamRefPresent = true → (stopRecording s).1.webcamTracksStopped = true) ∧
  (s.compositeRefPresent = true → (stopRecording s).1.compositeTracksStopped = true) ∧
  (stopRecording s).1.animationFramePresent = false ∧
  (stopRecording s).1.broadcastTimerPresent = false ∧
  (stopRecording s).1.errorMsg = s.errorMsg ∧
  stopRecording (stopRecording s).1 = ((stopRecording s).1, [])

/-- The component state right after a successful start with an
entire-display capture. -/
def startedRecState : RecState :=
  (startRecording monitorSurfaceEnv initialRecState).1

/-- An observer state in which the health has already degraded to poor. -/
def poorObserverState : ObserverState :=
  { isStreaming := false, lastFrameUpdate := some 0
  , streamHealth := Health.poor, errorMsg := some "Stream may have disconnected" }

/-- A storage capability that always succeeds. -/
def alwaysOkStorage : StorageEnv :=
  { storeOk := fun _ => true, dbOk := fun _ => true }

/-- A storage capability that fails the first two attempts and succeeds on
the third. -/
def thirdTryStorage : StorageEnv :=
  { storeOk := fun i => decide (i = 2), dbOk := fun _ => true }

/-- A persistently failing storage capability. -/
def deadStorage : StorageEnv :=
  { storeOk := fun _ => false, dbOk := fun _ => true }

/-! ## Helper lemmas -/

lemma foldl_append_eq_join (chunks : List (List Nat)) :
    ∀ acc : List Nat, chunks.foldl (fun a c => a ++ c) acc = acc ++ chunks.join := by
  induction chunks with
  | nil => intro acc; simp
  | cons hd tl ih => intro acc; simp [ih, List.append_assoc]

lemma beBytes_length (n v : Nat) : (beBytes n v).length = n := by
  simp [beBytes]

lemma beBytes_lt (n v : Nat) : ∀ b ∈ beBytes n v, b < 256 := by
  intro b hb
  simp only [beBytes, List.mem_map, List.mem_range] at hb
  obtain ⟨i, _, rfl⟩ := hb
  exact Nat.mod_lt _ (by norm_num)

lemma sha256Digest_length (msg : List Nat) : (sha256Digest msg).length = 32 := by
  simp [sha256Digest, beBytes_length]

lemma sha256Digest_lt (msg : List Nat) : ∀ b ∈ sha256Digest msg, b < 256 := by
  intro b hb
  simp only [sha256Digest, List.mem_append] at hb
  rcases hb with (((((((h | h) | h) | h) | h) | h) | h) | h) <;> exact beBytes_lt _ _ _ h

lemma hexDigitChar_hex : ∀ n : Nat, n < 16 → isLowerHexDigit (hexDigitChar n) = true := by
  decide

lemma joinMap_length (l : List Nat) :
    ((l.map byteHexChars).join).length = 2 * l.length := by
  induction l with
  | nil => simp
  | cons hd tl ih => simp [byteHexChars, ih]; omega

/-- Success step of the onstop upload loop. -/
lemma uploadLoopGo_ok (size : Nat) (env : StorageEnv) (fuel rc cs : Nat) (ds : List Nat)
    (hsz : ¬ maxUploadSize < size) (hst : env.storeOk rc = true) (hdb : env.dbOk rc = true) :
    uploadLoopGo size env (fuel + 1) rc ds cs =
      { uploadSuccess := true, attempts := rc + 1, delays := ds, storageCalls := cs + 1 } := by
  simp [uploadLoopGo, uploadRecording, hsz, hst, hdb]

/-- Failure step of the onstop upload loop with a retry remaining: wait
2000 * retryCount ms and loop. -/
lemma uploadLoopGo_fail_retry (size : Nat) (env : StorageEnv) (fuel rc cs : Nat) (ds : List Nat)
    (hsz : ¬ maxUploadSize < size) (hst : env.storeOk rc = false) (hlt : rc + 1 < maxRetries) :
    uploadLoopGo size env (fuel + 1) rc ds cs =
      uploadLoopGo size env fuel (rc + 1) (ds ++ [2000 * (rc + 1)]) (cs + 1) := by
  simp [uploadLoopGo, uploadRecording, hsz, hst, hlt]

/-- Failure on the final permitted attempt. -/
lemma uploadLoopGo_fail_last (size : Nat) (env : StorageEnv) (fuel rc cs : Nat) (ds : List Nat)
    (hsz : ¬ maxUploadSize < size) (hst : env.storeOk rc = false) (hge : ¬ rc + 1 < maxRetries) :
    uploadLoopGo size env (fuel + 1) rc ds cs =
      { uploadSuccess := false, attempts := rc + 1, delays := ds, storageCalls := cs + 1 } := by
  simp [uploadLoopGo, uploadRecording, hsz, hst, hge]

/-- The loop never makes more attempts than retryCount plus the remaining
fuel allows. -/
lemma uploadLoopGo_attempts_le (size : Nat) (env : StorageEnv) :
    ∀ (fuel rc cs : Nat) (ds : List Nat),
      (uploadLoopGo size env fuel rc ds cs).attempts ≤ rc + fuel := by
  intro fuel
  induction fuel with
  | zero => intro rc cs ds; simp [uploadLoopGo]
  | succ n ih =>
    intro rc cs ds
    simp only [uploadLoopGo]
    cases hr : (uploadRecording size (env.storeOk rc) (env.dbOk rc)).1 with
    | ok v => simp [hr]
    | error e =>
      simp only [hr]
      by_cases hlt : rc + 1 < maxRetries
      · simp only [hlt, if_true]
        exact le_trans (ih (rc + 1) _ _) (by omega)
      · simp only [hlt, if_false]
        omega

/-! ## Claim theorems -/

/-- C4: with a frame received at time 0 and no further frames, the observed
health computed by checkStreamHealth is good at 1 s, fair at 4 s and poor at
11 s of elapsed time; in general the classification is good below 3000 ms,
fair from 3000 ms up to (excluding) 10000 ms and poor from 10000 ms on,
while the recomputation itself runs on the fixed 5000 ms polling interval. -/
theorem c4_health_thresholds :
    (checkStreamHealth 1000 (onVideoFrame 0 initialObserverState)).streamHealth = Health.good ∧
    (checkStreamHealth 4000 (onVideoFrame 0 initialObserverState)).streamHealth = Health.fair ∧
    (checkStreamHealth 11000 (onVideoFrame 0 initialObserverState)).streamHealth = Health.poor ∧
    (∀ e : Nat, e < 3000 →
      (checkStreamHealth e (onVideoFrame 0 initialObserverState)).streamHealth = Health.good) ∧
    (∀ e : Nat, 3000 ≤ e → e < 10000 →
      (checkStreamHealth e (onVideoFrame 0 initialObserverState)).streamHealth = Health.fair) ∧
    (∀ e : Nat, 10000 ≤ e →
      (checkStreamHealth e (onVideoFrame 0 initialObserverState)).streamHealth = Health.poor) ∧
    healthCheckIntervalMs = 5000 := by
  refine ⟨by decide, by decide, by decide, ?_, ?_, ?_, rfl⟩
  · intro e he
    simp [checkStreamHealth, onVideoFrame, he]
  · intro e hge hlt
    have h1 : ¬ e < 3000 := by omega
    simp [checkStreamHealth, onVideoFrame, h1, hlt]
  · intro e hge
    have h1 : ¬ e < 3000 := by omega
    have h2 : ¬ e < 10000 := by omega
    simp [checkStreamHealth, onVideoFrame, h1, h2]

/-- C4 witness: at 4.5 s of elapsed time the computed health is fair. -/
theorem c4_witness :
    (checkStreamHealth 4500 (onVideoFrame 0 initialObserverState)).streamHealth = Health.fair :=
  c4_health_thresholds.2.2.2.2.1 4500 (by decide) (by decide)

/-- C5 counterexample: receipt of a frame does not change the health state
at all; from poor it stays poor immediately after receipt, instead of
becoming good upon receipt as the claim states. -/
theorem c5_counterexample :
    (onVideoFrame 20000 poorObserverState).streamHealth = Health.poor ∧
    ¬ (onVideoFrame 20000 poorObserverState).streamHealth = Health.good := by
  decide

/-- C5 as amended: receiving a frame immediately records the arrival time
and marks the session streaming but leaves streamHealth untouched; the
health becomes good only at the next checkStreamHealth polling tick, which
classifies good whenever under 3000 ms have elapsed since the frame. -/
theorem c5_good_at_next_tick :
    ∀ (s : ObserverState) (t now : Nat),
      (onVideoFrame t s).streamHealth = s.streamHealth ∧
      (onVideoFrame t s).lastFrameUpdate = some t ∧
      (onVideoFrame t s).isStreaming = true ∧
      (now - t < 3000 →
        (checkStreamHealth now (onVideoFrame t s)).streamHealth = Health.good) := by
  intro s t now
  refine ⟨rfl, rfl, rfl, ?_⟩
  intro h
  simp [checkStreamHealth, onVideoFrame, h]

/-- C5 witness: a frame received at 20 s in the poor state, followed by a
tick at 20.5 s, yields good. -/
theorem c5_witness :
    (checkStreamHealth 20500 (onVideoFrame 20000 poorObserverState)).streamHealth =
      Health.good :=
  (c5_good_at_next_tick poorObserverState 20000 20500).2.2.2 (by decide)

/-- C6 counterexample: for a 1280 x 100 primary capture (no downscaling
needed) the overlay rectangle extends above the top edge of the composited
surface, so the drawn rectangle is not fully within the surface bounds for
every primary resolution. -/
theorem c6_counterexample :
    ¬ rectWithin (pipRect (canvasSizeFor 1280 100)) (canvasSizeFor 1280 100) := by
  have hc : canvasSizeFor 1280 100 = { width := 1280, height := 100 } := by
    norm_num [canvasSizeFor, maxCanvasWidth]
  intro h
  have hy := h.2.1
  rw [hc] at hy
  norm_num [pipRect, pipWidthRatio] at hy

/-- C6 as amended: the overlay width always equals the configured ratio of
the composited width, its height is always three quarters of that width,
and its right and bottom edges always sit exactly 20 px inside the surface;
the rectangle lies fully within the surface bounds whenever the surface is
at least 25 px wide and at least 0.15 times its width plus 20 px tall; in
particular a 1920 x 1080 primary capped at width 1280 composites at
1280 x 720 with a 256 x 192 overlay at (1004, 508). -/
theorem c6_overlay_geometry :
    (∀ c : CanvasSize,
      (pipRect c).w = (c.width : ℚ) * pipWidthRatio ∧
      (pipRect c).h = (pipRect c).w * (3 / 4) ∧
      (pipRect c).x + (pipRect c).w = (c.width : ℚ) - 20 ∧
      (pipRect c).y + (pipRect c).h = (c.height : ℚ) - 20) ∧
    (∀ c : CanvasSize, 25 ≤ c.width →
      (3 : ℚ) / 20 * (c.width : ℚ) + 20 ≤ (c.height : ℚ) →
      rectWithin (pipRect c) c) ∧
    canvasSizeFor 1920 1080 = { width := 1280, height := 720 } ∧
    pipRect { width := 1280, height := 720 } = { x := 1004, y := 508, w := 256, h := 192 } := by
  refine ⟨?_, ?_, ?_, ?_⟩
  case refine_3 =>
    norm_num [canvasSizeFor, maxCanvasWidth, round_eq]
    rfl
  case refine_4 =>
    norm_num [pipRect, pipWidthRatio, Rect.mk.injEq]
  · intro c
    refine ⟨rfl, rfl, ?_, ?_⟩ <;> · simp only [pipRect]; ring
  · intro c h1 h2
    have h1q : (25 : ℚ) ≤ (c.width : ℚ) := by exact_mod_cast h1
    simp only [rectWithin, pipRect, pipWidthRatio]
    refine ⟨by linarith, by linarith, by linarith, by linarith⟩

/-- C6 witness: for the 1280 x 720 composited surface the overlay lies
fully within the bounds. -/
theorem c6_witness :
    rectWithin (pipRect { width := 1280, height := 720 }) { width := 1280, height := 720 } :=
  c6_overlay_geometry.2.1 { width := 1280, height := 720 } (by norm_num) (by norm_num)

/-- C1: startRecording performs no validation of the reported surface type.
On a run in which the browser grants a window capture instead of an entire
display, startRecording records no error, has already entered recording
state (isRecording set true as its very first step, before any
acquisition), creates and starts the MediaRecorder and starts the
live-frame broadcaster; indeed its result is identical to the run with an
entire-display capture.  This contradicts the claimed InvalidSurface
failure. -/
theorem c1_no_surface_validation :
    windowSurfaceEnv.screenSurface ≠ "monitor" ∧
    (startRecording windowSurfaceEnv initialRecState).1.errorMsg = none ∧
    (startRecording windowSurfaceEnv initialRecState).1.isRecording = true ∧
    (startRecording windowSurfaceEnv initialRecState).1.recorderStarted = true ∧
    RecAction.createRecorder ∈ (startRecording windowSurfaceEnv initialRecState).2 ∧
    RecAction.startRecorder ∈ (startRecording windowSurfaceEnv initialRecState).2 ∧
    RecAction.startBroadcaster ∈ (startRecording windowSurfaceEnv initialRecState).2 ∧
    (startRecording windowSurfaceEnv initialRecState).2.head? =
      some (RecAction.setRecordingState true) ∧
    startRecording windowSurfaceEnv initialRecState =
      startRecording monitorSurfaceEnv initialRecState := by
  refine ⟨by decide, rfl, rfl, rfl, by decide, by decide, by decide, rfl, rfl⟩

/-- C2 counterexample: for an artifact one byte over the ceiling the too
large failure is retried like any other error; the loop makes all 3
attempts, not just one. -/
theorem c2_counterexample :
    (uploadLoop (maxUploadSize + 1) alwaysOkStorage).attempts = 3 ∧
    ¬ (uploadLoop (maxUploadSize + 1) alwaysOkStorage).attempts = 1 := by
  have h : uploadLoop (maxUploadSize + 1) alwaysOkStorage =
      { uploadSuccess := false, attempts := 3, delays := [2000, 4000], storageCalls := 0 } := by
    have hsz : maxUploadSize < maxUploadSize + 1 := Nat.lt_succ_self _
    calc uploadLoop (maxUploadSize + 1) alwaysOkStorage
        = uploadLoopGo (maxUploadSize + 1) alwaysOkStorage (2 + 1) 0 [] 0 := rfl
      _ = uploadLoopGo (maxUploadSize + 1) alwaysOkStorage (1 + 1) 1 [2000] 0 := by
          simp [uploadLoopGo, uploadRecording, hsz, maxRetries]
      _ = uploadLoopGo (maxUploadSize + 1) alwaysOkStorage (0 + 1) 2 [2000, 4000] 0 := by
          simp [uploadLoopGo, uploadRecording, hsz, maxRetries]
      _ = { uploadSuccess := false, attempts := 3, delays := [2000, 4000], storageCalls := 0 } := by
          simp [uploadLoopGo, uploadRecording, hsz, maxRetries]
  rw [h]
  exact ⟨rfl, by decide⟩

/-- C2 as amended: an artifact exceeding the 5 GiB ceiling makes every
uploadRecording attempt fail with the too-large error before the storage
capability is invoked, but the onstop loop does not treat this failure as
non-retryable: it retries it like any other error, making the full bound of
3 attempts with backoff waits of 2000 and 4000 ms and never invoking the
storage capability. -/
theorem c2_size_limit_retried :
    ∀ (size : Nat) (env : StorageEnv), maxUploadSize < size →
      (∀ st db : Bool,
        uploadRecording size st db = (Except.error UploadError.tooLarge, false)) ∧
      uploadLoop size env =
        { uploadSuccess := false, attempts := 3, delays := [2000, 4000], storageCalls := 0 } := by
  intro size env hsz
  have hrec : ∀ st db : Bool,
      uploadRecording size st db = (Except.error UploadError.tooLarge, false) := by
    intro st db
    simp [uploadRecording, hsz]
  refine ⟨hrec, ?_⟩
  calc uploadLoop size env
      = uploadLoopGo size env (2 + 1) 0 [] 0 := rfl
    _ = uploadLoopGo size env (1 + 1) 1 [2000] 0 := by
        simp [uploadLoopGo, hrec, maxRetries]
    _ = uploadLoopGo size env (0 + 1) 2 [2000, 4000] 0 := by
        simp [uploadLoopGo, hrec, maxRetries]
    _ = { uploadSuccess := false, attempts := 3, delays := [2000, 4000], storageCalls := 0 } := by
        simp [uploadLoopGo, hrec, maxRetries]

/-- C2 witness for the amended claim at one byte over the ceiling. -/
theorem c2_witness :
    uploadLoop (maxUploadSize + 1) alwaysOkStorage =
      { uploadSuccess := false, attempts := 3, delays := [2000, 4000], storageCalls := 0 } :=
  (c2_size_limit_retried (maxUploadSize + 1) alwaysOkStorage (Nat.lt_succ_self _)).2

/-- C3: with a storage capability that fails the first two attempts and
succeeds on the third, the onstop loop succeeds on attempt 3 after backoff
waits of 2000 and 4000 ms; with a persistently failing capability it stops
after exactly the 3 permitted attempts, with strictly increasing backoff,
and the assembled blob and its checksum are still delivered to the
onRecordingStop callback; in general the loop never exceeds the configured
bound of attempts. -/
theorem c3_upload_retry :
    (∀ (chunks : List (List Nat)) (env : StorageEnv),
      (blobOfChunks chunks).length ≤ maxUploadSize →
      env.storeOk 0 = false → env.storeOk 1 = false →
      env.storeOk 2 = true → env.dbOk 2 = true →
        (recorderOnStop chunks env).run.uploadSuccess = true ∧
        (recorderOnStop chunks env).run.attempts = 3 ∧
        (recorderOnStop chunks env).run.delays = [2000, 4000] ∧
        (recorderOnStop chunks env).deliveredBlob = blobOfChunks chunks ∧
        (recorderOnStop chunks env).deliveredChecksum =
          calculateChecksum (blobOfChunks chunks)) ∧
    (∀ (chunks : List (List Nat)) (env : StorageEnv),
      (blobOfChunks chunks).length ≤ maxUploadSize →
      (∀ i, env.storeOk i = false) →
        (recorderOnStop chunks env).run.uploadSuccess = false ∧
        (recorderOnStop chunks env).run.attempts = 3 ∧
        (recorderOnStop chunks env).run.delays = [2000, 4000] ∧
        List.Chain' (fun a b => a < b) (recorderOnStop chunks env).run.delays ∧
        (recorderOnStop chunks env).deliveredBlob = blobOfChunks chunks ∧
        (recorderOnStop chunks env).deliveredChecksum =
          calculateChecksum (blobOfChunks chunks)) ∧
    (∀ (size : Nat) (env : StorageEnv), (uploadLoop size env).attempts ≤ maxRetries) := by
  refine ⟨?_, ?_, ?_⟩
  · intro chunks env hle h0 h1 h2 hdb
    have hsz : ¬ maxUploadSize < (blobOfChunks chunks).length := Nat.not_lt.mpr hle
    have hrun : uploadLoop (blobOfChunks chunks).length env =
        { uploadSuccess := true, attempts := 3, delays := [2000, 4000], storageCalls := 3 } := by
      calc uploadLoop (blobOfChunks chunks).length env
          = uploadLoopGo (blobOfChunks chunks).length env (2 + 1) 0 [] 0 := rfl
        _ = uploadLoopGo (blobOfChunks chunks).length env (1 + 1) 1 [2000] 1 := by
            rw [uploadLoopGo_fail_retry _ _ _ _ _ _ hsz h0 (by norm_num [maxRetries])]
            norm_num
        _ = uploadLoopGo (blobOfChunks chunks).length env (0 + 1) 2 [2000, 4000] 2 := by
            rw [uploadLoopGo_fail_retry _ _ _ _ _ _ hsz h1 (by norm_num [maxRetries])]
            norm_num
        _ = { uploadSuccess := true, attempts := 3, delays := [2000, 4000], storageCalls := 3 } := by
            rw [uploadLoopGo_ok _ _ _ _ _ _ hsz h2 hdb]
    refine ⟨?_, ?_, ?_, rfl, rfl⟩ <;>
      simp [recorderOnStop, finalizeRecording, hrun]
  · intro chunks env hle hdead
    have hsz : ¬ maxUploadSize < (blobOfChunks chunks).length := Nat.not_lt.mpr hle
    have hrun : uploadLoop (blobOfChunks chunks).length env =
        { uploadSuccess := false, attempts := 3, delays := [2000, 4000], storageCalls := 3 } := by
      calc uploadLoop (blobOfChunks chunks).length env
          = uploadLoopGo (blobOfChunks chunks).length env (2 + 1) 0 [] 0 := rfl
        _ = uploadLoopGo (blobOfChunks chunks).length env (1 + 1) 1 [2000] 1 := by
            rw [uploadLoopGo_fail_retry _ _ _ _ _ _ hsz (hdead 0) (by norm_num [maxRetries])]
            norm_num
        _ = uploadLoopGo (blobOfChunks chunks).length env (0 + 1) 2 [2000, 4000] 2 := by
            rw [uploadLoopGo_fail_retry _ _ _ _ _ _ hsz (hdead 1) (by norm_num [maxRetries])]
            norm_num
        _ = { uploadSuccess := false, attempts := 3, delays := [2000, 4000], storageCalls := 3 } := by
            rw [uploadLoopGo_fail_last _ _ _ _ _ _ hsz (hdead 2) (by norm_num [maxRetries])]
    refine ⟨?_, ?_, ?_, ?_, rfl, rfl⟩ <;>
      simp [recorderOnStop, finalizeRecording, hrun]
  · intro size env
    exact uploadLoopGo_attempts_le size env maxRetries 0 0 []

/-- C3 witness: for the one-chunk artifact 1 2 3 the loop succeeds on the
third attempt under thirdTryStorage and makes exactly 3 failed attempts
under deadStorage, still delivering the blob. -/
theorem c3_witness :
    (recorderOnStop [[1, 2, 3]] thirdTryStorage).run.uploadSuccess = true ∧
    (recorderOnStop [[1, 2, 3]] thirdTryStorage).run.attempts = 3 ∧
    (recorderOnStop [[1, 2, 3]] deadStorage).run.uploadSuccess = false ∧
    (recorderOnStop [[1, 2, 3]] deadStorage).run.attempts = 3 ∧
    (recorderOnStop [[1, 2, 3]] deadStorage).deliveredBlob = blobOfChunks [[1, 2, 3]] := by
  have h1 := c3_upload_retry.1 [[1, 2, 3]] thirdTryStorage (by decide) rfl rfl rfl rfl
  have h2 := c3_upload_retry.2.1 [[1, 2, 3]] deadStorage (by decide) (fun _ => rfl)
  exact ⟨h1.1, h1.2.1, h2.1, h2.2.1, h2.2.2.2.2.1⟩

/-- C7: after a successful start, the ended signal of a track of either
source (or of the composite) stops the whole pipeline: the recorder is
stopped, recording state is left, the tracks of all three streams are
stopped and the compositing loop, broadcast timer and realtime channel are
torn down, so nothing continues with a partial composite. -/
theorem c7_track_ended_stops_pipeline :
    ∀ (k : StreamKind) (env : AcquireEnv),
      env.screenGranted = true → env.webcamGranted = true →
      pipelineStopped (onTrackEnded k (startRecording env initialRecState).1).1 := by
  intro k env h1 h2
  simp [pipelineStopped, startRecording, h1, h2, onTrackEnded, stopRecording,
    stopAllStreams, initialRecState]

/-- C7 witness: a screen track ending right after a successful
entire-display start stops the pipeline. -/
theorem c7_witness :
    pipelineStopped (onTrackEnded StreamKind.screen
      (startRecording monitorSurfaceEnv initialRecState).1).1 :=
  c7_track_ended_stops_pipeline StreamKind.screen monitorSurfaceEnv rfl rfl

/-- C8: stopping in any state with a live recorder releases every held
stream (stopping its tracks), cancels the render loop and timers, records
no error, and a second stopRecording is a pure no-op: it emits no action at
all (so no track is stopped twice) and leaves the state unchanged. -/
theorem c8_stop_idempotent :
    ∀ s : RecState, s.recorderPresent = true → s.isRecording = true → stopOutcome s := by
  intro s h1 h2
  unfold stopOutcome
  refine ⟨?_, ?_, ?_, ?_, ?_, ?_, ?_, ?_, ?_, ?_⟩ <;> try intro hp
  all_goals simp [stopRecording, stopAllStreams, h1, h2, *]

/-- C8 witness: stopping right after a successful start. -/
theorem c8_witness : stopOutcome startedRecState :=
  c8_stop_idempotent startedRecState rfl rfl

/-- C9: for every chunk sequence, concatenating the chunks in order and
recomputing the SHA-256 checksum over the concatenation yields exactly the
checksum computed at finalize time by recorder.onstop. -/
theorem c9_checksum_roundtrip :
    ∀ chunks : List (List Nat),
      calculateChecksum (chunks.foldl (fun acc c => acc ++ c) []) =
        (finalizeRecording chunks).checksum ∧
      (finalizeRecording chunks).blob = blobOfChunks chunks := by
  intro chunks
  constructor
  · have h := foldl_append_eq_join chunks []
    rw [List.nil_append] at h
    rw [h]
    rfl
  · rfl

/-- C9 witness at a concrete two-chunk sequence. -/
theorem c9_witness :
    calculateChecksum (([[1], [2, 3]] : List (List Nat)).foldl (fun acc c => acc ++ c) []) =
      (finalizeRecording [[1], [2, 3]]).checksum :=
  (c9_checksum_roundtrip [[1], [2, 3]]).1

/-- C10: for every blob, calculateChecksum returns a string of exactly 64
characters, all lowercase hexadecimal digits, and equal blob bytes give
equal checksum strings. -/
theorem c10_checksum_format :
    ∀ blob : List Nat,
      (calculateChecksum blob).length = 64 ∧
      (∀ ch ∈ (calculateChecksum blob).data, isLowerHexDigit ch = true) ∧
      (∀ blob2, blob = blob2 → calculateChecksum blob = calculateChecksum blob2) := by
  intro blob
  refine ⟨?_, ?_, ?_⟩
  · show ((sha256Digest blob).map byteHexChars).join.length = 64
    rw [joinMap_length, sha256Digest_length]
  · intro ch hch
    have hch2 : ch ∈ ((sha256Digest blob).map byteHexChars).join := hch
    rw [List.mem_join] at hch2
    obtain ⟨l, hl, hcl⟩ := hch2
    rw [List.mem_map] at hl
    obtain ⟨b, hb, rfl⟩ := hl
    have hblt : b < 256 := sha256Digest_lt blob b hb
    have hd : b / 16 < 16 := Nat.div_lt_of_lt_mul (by omega)
    have hm : b % 16 < 16 := Nat.mod_lt _ (by norm_num)
    simp only [byteHexChars, List.mem_cons, List.mem_singleton] at hcl
    rcases hcl with rfl | rfl | hfalse
    · exact hexDigitChar_hex _ hd
    · exact hexDigitChar_hex _ hm
    · exact absurd hfalse (List.not_mem_nil _)
  · intro blob2 heq
    rw [heq]

/-- C10 witness at a concrete blob. -/
theorem c10_witness : (calculateChecksum [0, 255]).length = 64 :=
  (c10_checksum_format [0, 255]).1

end ExamProctor
